import Mathlib

/-
  Verification development for the `apifakturownia` client library.

  The repository is a small Python client for the Fakturownia invoicing
  REST API.  It consists of three modules:
    * `apifakturownia/errors.py`      - exception taxonomy,
    * `apifakturownia/models.py`      - pydantic data-transfer models,
    * `apifakturownia/api_client.py`  - request dispatcher and the
      `/invoices` endpoint operations.

  This file gives a shallow embedding of those modules and proves the
  contracts stated in the specification about them.  Python values that
  can appear in a request or a decoded response are modelled by `Json`
  (JSON values plus `datetime.date` objects, which pydantic's
  `model_dump` leaves unserialised); Python dictionaries are modelled by
  association lists with Python's assignment semantics; numbers are
  modelled by `Rat` (covering the `int` and `float` inputs relevant to
  the validated constraints).
-/

/-- Python `datetime.date` values: a calendar date. -/
structure PyDate where
  year : Nat
  month : Nat
  day : Nat
deriving DecidableEq, Repr

/-- JSON values, extended with `date` for `datetime.date` objects that occur
in pydantic `model_dump` output before wire serialisation. -/
inductive Json where
  | null
  | bool (b : Bool)
  | num (q : Rat)
  | str (s : String)
  | date (d : PyDate)
  | arr (elems : List Json)
  | obj (fields : List (String × Json))

/-- A Python `dict` with string keys, as an association list in insertion
order (Python dicts keep keys unique and ordered by first insertion). -/
abbrev Dict := List (String × Json)

/-- Python `d[k] = v`: replace the first binding in place if the key is
present, otherwise append the binding at the end. -/
def dictSet : Dict → String → Json → Dict
  | [], k, v => [(k, v)]
  | (k2, v2) :: rest, k, v =>
      if k2 = k then (k, v) :: rest else (k2, v2) :: dictSet rest k v

/-- Python `d.get(k)`: value of the first binding for `k`. -/
def dictLookup : Dict → String → Option Json
  | [], _ => none
  | (k, v) :: rest, key => if k = key then some v else dictLookup rest key

/-- Python `k in d`. -/
def dictHasKey (d : Dict) (k : String) : Bool :=
  d.any (fun p => p.1 = k)

/-- Python `d.update(other)`: assign every binding of `other` into `d`. -/
def dictUpdate (d other : Dict) : Dict :=
  other.foldl (fun acc p => dictSet acc p.1 p.2) d

/-- Python truthiness of a decoded JSON value (`bool(x)` in Python):
`None`, `False`, zero, the empty string, the empty list and the empty
dict are falsy; dates are truthy objects. -/
def Json.pyTruthy : Json → Bool
  | .null => false
  | .bool b => b
  | .num q => q != 0
  | .str s => s ≠ ""
  | .date _ => true
  | .arr elems => ¬ elems.isEmpty
  | .obj fields => ¬ fields.isEmpty

/- ------------------------------------------------------------------
   apifakturownia/errors.py
   ------------------------------------------------------------------
   `FakturowniaAPIException` is the base class; `AuthenticationError`,
   `ValidationError`, `ResourceNotFoundError` and `ServerError` subclass
   it without adding state.  The nominal hierarchy is modelled as a kind
   tag carried by a single exception value. -/

inductive ErrorKind where
  | base              -- FakturowniaAPIException itself
  | authentication    -- AuthenticationError (401/403)
  | validation        -- ValidationError (400)
  | resourceNotFound  -- ResourceNotFoundError (404)
  | server            -- ServerError (5xx)
deriving DecidableEq, Repr

/-- An instance of `FakturowniaAPIException` (or a subclass, per `kind`).
`details` is stored after the constructor's `details or {}`
normalisation, so a missing or falsy payload becomes the empty dict. -/
structure FakturowniaAPIException where
  kind : ErrorKind
  message : String
  status_code : Option Nat
  details : Json

/-- Constructor `FakturowniaAPIException.__init__`: stores the message and status code
and normalises `details` with `details or {}`. -/
def mkException (kind : ErrorKind) (message : String) (status_code : Option Nat)
    (details : Option Json) : FakturowniaAPIException :=
  { kind := kind
    message := message
    status_code := status_code
    details :=
      match details with
      | some j => if j.pyTruthy then j else .obj []
      | none => .obj [] }

/- ------------------------------------------------------------------
   apifakturownia/api_client.py - FakturowniaApiClient._make_request,
   response half (lines 133-155)
   ------------------------------------------------------------------ -/

/-- The body of an HTTP response as seen through `requests`:
`empty` when `response.content` is empty, `json j` when `response.json()`
decodes to `j`, and `invalid raw` when the body is non-empty but
`response.json()` raises `requests.JSONDecodeError`. -/
inductive HttpBody where
  | empty
  | json (j : Json)
  | invalid (raw : String)

/-- Whether the body is empty, i.e. `not response.content`. -/
def HttpBody.contentEmpty : HttpBody → Bool
  | .empty => true
  | _ => false

/-- A received HTTP response: status code, body, and `response.text`. -/
structure HttpResponse where
  status : Nat
  body : HttpBody
  text : String

/-- What `_make_request` does with a received response: return a decoded
payload (`none` for 204/empty bodies), raise a typed
`FakturowniaAPIException`, or let an untyped `requests.JSONDecodeError`
escape (the unguarded `response.json()` on line 143). -/
inductive DispatchOutcome where
  | ok (payload : Option Json)
  | apiError (e : FakturowniaAPIException)
  | jsonDecodeEscape (raw : String)

/-- Whether the outcome is a typed error of the taxonomy. -/
def DispatchOutcome.isTypedError : DispatchOutcome → Bool
  | .apiError _ => true
  | _ => false

/-- The f-string on line 144:
`f"Błąd API Fakturownia (HTTP {response.status_code}): {response.text}"`. -/
def errorMessage (r : HttpResponse) : String :=
  "Błąd API Fakturownia (HTTP " ++ toString r.status ++ "): " ++ r.text

/-- Lines 133-155 of `_make_request`: status verification, decoding and
the mapping of non-2xx statuses onto the exception taxonomy.
On the error path, `error_details = response.json() if response.content
else None` re-raises the decode exception untyped when the body is
non-empty but not JSON. -/
def handleResponse (r : HttpResponse) : DispatchOutcome :=
  if 200 ≤ r.status ∧ r.status < 300 then
    if r.status = 204 ∨ r.body.contentEmpty then
      .ok none
    else
      match r.body with
      | .json j => .ok (some j)
      | .invalid _ =>
          .apiError (mkException .base "Nie udało się zdekodować odpowiedzi JSON." none none)
      | .empty => .ok none
  else
    match r.body with
    | .invalid raw => .jsonDecodeEscape raw
    | b =>
      let error_details : Option Json :=
        match b with
        | .json j => some j
        | _ => none
      let msg := errorMessage r
      if r.status = 400 then
        .apiError (mkException .validation msg (some r.status) error_details)
      else if r.status = 401 ∨ r.status = 403 then
        .apiError (mkException .authentication msg (some r.status) error_details)
      else if r.status = 404 then
        .apiError (mkException .resourceNotFound msg (some r.status) error_details)
      else if 500 ≤ r.status ∧ r.status < 600 then
        .apiError (mkException .server msg (some r.status) error_details)
      else
        .apiError (mkException .base msg (some r.status) error_details)

/- ------------------------------------------------------------------
   apifakturownia/api_client.py - FakturowniaApiClient (lines 84-127)
   ------------------------------------------------------------------ -/

/-- Configuration stored by `FakturowniaApiClient.__init__`, immutable. -/
structure FakturowniaApiClient where
  base_url : String
  api_token : String
  timeout : Nat

/-- Constructor `FakturowniaApiClient(domain, api_token, request_timeout)`:
`base_url = f"https://{domain}.fakturownia.pl"`. -/
def FakturowniaApiClient.ofDomain (domain api_token : String)
    (request_timeout : Nat) : FakturowniaApiClient :=
  { base_url := "https://" ++ domain ++ ".fakturownia.pl"
    api_token := api_token
    timeout := request_timeout }

/-- The outgoing HTTP request handed to `self.session.request` on
line 121: method, full URL, query parameters and JSON body. -/
structure OutRequest where
  method : String
  url : String
  params : Dict
  json : Dict

/-- The request-building half of `_make_request` (lines 100-118): URL
concatenation, defensive copies of the caller's mappings, and the
method-dependent token injection.

Modelled from the spec: the two method-list literals of the injection
branches are missing from the source (`if method in:` on lines 110 and
117 has truncated list literals); per the spec's authentication
injection rule, POST and PUT inject `api_token` into the JSON body and
GET and DELETE inject it into the query string (matching the source's
own comments on lines 109 and 116). -/
def prepareRequest (c : FakturowniaApiClient) (method endpoint : String)
    (request_params json_data : Option Dict) : OutRequest :=
  let full_url := c.base_url ++ endpoint
  -- request_params = request_params.copy() if request_params else {}
  let rp : Dict := match request_params with
    | some p => p
    | none => []
  -- request_json = json_data.copy() if json_data else {}
  let rj : Dict := match json_data with
    | some j => j
    | none => []
  if method = "POST" ∨ method = "PUT" then
    { method := method, url := full_url
      params := rp
      json := dictSet rj "api_token" (.str c.api_token) }
  else if method = "GET" ∨ method = "DELETE" then
    { method := method, url := full_url
      params := dictSet rp "api_token" (.str c.api_token)
      json := rj }
  else
    { method := method, url := full_url, params := rp, json := rj }

/-- The transport outcome of `self.session.request`: either a response or
a raised `requests.exceptions.RequestException`. -/
inductive NetResult where
  | response (r : HttpResponse)
  | transportError (msg : String)

/-- The whole of `_make_request`, with the network modelled as the given
`NetResult`: build the request (token injection), then translate the
transport outcome (lines 120-131) and the response (lines 133-155). -/
def makeRequest (c : FakturowniaApiClient) (method endpoint : String)
    (request_params json_data : Option Dict) (net : NetResult) : DispatchOutcome :=
  let _req := prepareRequest c method endpoint request_params json_data
  match net with
  | .transportError e =>
      .apiError (mkException .base ("Błąd sieciowy podczas komunikacji z API: " ++ e) none none)
  | .response r => handleResponse r

/- ------------------------------------------------------------------
   Object-identity model for the defensive copies (lines 105-106)
   ------------------------------------------------------------------
   To state that the caller's dictionaries are never mutated we track
   Python object identity: a heap of dict objects addressed by `Nat`
   references.  `d.copy()` allocates a fresh object; `d[k] = v` mutates
   the object behind the reference in place. -/

/-- A heap of Python dict objects; a reference is an index. -/
abbrev DictHeap := List Dict

/-- Allocate a new dict object, returning the extended heap and the
fresh reference. -/
def DictHeap.alloc (h : DictHeap) (d : Dict) : DictHeap × Nat :=
  (h ++ [d], h.length)

/-- Read the dict object behind a reference. -/
def DictHeap.read (h : DictHeap) (r : Nat) : Dict :=
  (h.get? r).getD []

/-- Overwrite the dict object behind a reference (in-place mutation). -/
def DictHeap.write (h : DictHeap) (r : Nat) (d : Dict) : DictHeap :=
  h.set r d

/-- Lines 105-118 of `_make_request` with object identity made explicit:
`request_params = request_params.copy() if request_params else {}` and
`request_json = json_data.copy() if json_data else {}` both allocate a
fresh dict (a copy of the argument's contents when it is truthy, empty
otherwise), and the token injection `d['api_token'] = ...` mutates only
the fresh object.  Returns the new heap and the references holding the
transmitted query params and JSON body. -/
def makeRequestHeap (c : FakturowniaApiClient) (method : String)
    (h : DictHeap) (request_params json_data : Option Nat) :
    DictHeap × Nat × Nat :=
  let (h1, rp) :=
    match request_params with
    | some r => h.alloc (if (h.read r).isEmpty then [] else h.read r)
    | none => h.alloc []
  let (h2, rj) :=
    match json_data with
    | some r => h1.alloc (if (h1.read r).isEmpty then [] else h1.read r)
    | none => h1.alloc []
  if method = "POST" ∨ method = "PUT" then
    (h2.write rj (dictSet (h2.read rj) "api_token" (.str c.api_token)), rp, rj)
  else if method = "GET" ∨ method = "DELETE" then
    (h2.write rp (dictSet (h2.read rp) "api_token" (.str c.api_token)), rp, rj)
  else
    (h2, rp, rj)

/- ------------------------------------------------------------------
   apifakturownia/models.py
   ------------------------------------------------------------------ -/

/-- Constant `VOID_STATUS = 'anulowana'` (models.py line 16). -/
def VOID_STATUS : String := "anulowana"

/-- The `DocumentKind` literal (models.py line 9). -/
inductive DocumentKind where
  | vat | proforma | correction | advance | final | cost | accounting_note
deriving DecidableEq, Repr

/-- The string of a `DocumentKind` literal. -/
def DocumentKind.toStr : DocumentKind → String
  | .vat => "vat"
  | .proforma => "proforma"
  | .correction => "correction"
  | .advance => "advance"
  | .final => "final"
  | .cost => "cost"
  | .accounting_note => "accounting_note"

/-- Parsing a string against the `DocumentKind` literal. -/
def DocumentKind.ofStr? (s : String) : Option DocumentKind :=
  if s = "vat" then some .vat
  else if s = "proforma" then some .proforma
  else if s = "correction" then some .correction
  else if s = "advance" then some .advance
  else if s = "final" then some .final
  else if s = "cost" then some .cost
  else if s = "accounting_note" then some .accounting_note
  else none

/-- A Python value that is either a number (`int`/`float`) or a `str`:
used for `total_price_gross : Union[str, float]` and for
`tax : VatRate = Union[int, float, str]`. -/
inductive NumOrStr where
  | num (q : Rat)
  | str (s : String)
deriving DecidableEq, Repr

/-- Serialisation of a `NumOrStr` into a JSON value. -/
def NumOrStr.toJson : NumOrStr → Json
  | .num q => .num q
  | .str s => .str s

/-- Model `CorrectionAttributesDTO` (models.py lines 22-28): the `before`/`after`
snapshot of a corrected position.  `tax` defaults to `23.0`; `kind`
defaults to `'correction_before'` and is marked `exclude=True`, so it is
never serialised by `model_dump`. -/
structure CorrectionAttributesDTO where
  name : Option String
  quantity : Option Rat
  total_price_gross : Option NumOrStr
  tax : Option Rat
  kind : Option String
deriving DecidableEq, Repr

/-- Model `InvoicePositionDTO` (models.py lines 31-46): one line item.
`quantity` is declared `Field(..., gt=0)`. -/
structure InvoicePositionDTO where
  id : Option Int
  name : String
  quantity : Rat
  total_price_gross : NumOrStr
  tax : NumOrStr
  kind : Option String
  correction_before_attributes : Option CorrectionAttributesDTO
  correction_after_attributes : Option CorrectionAttributesDTO
deriving DecidableEq, Repr

/-- Model `InvoiceDTO` (models.py lines 49-87): the invoice document.
`payment_method` defaults to `'Przelew'`; `positions` is
`conlist(InvoicePositionDTO, min_length=1)`; unknown response fields are
ignored (`extra = 'ignore'`). -/
structure InvoiceDTO where
  kind : DocumentKind
  sell_date : PyDate
  issue_date : PyDate
  seller_name : Option String
  seller_tax_no : Option String
  buyer_name : Option String
  buyer_tax_no : Option String
  buyer_email : Option String
  payment_to : Option PyDate
  payment_method : Option String
  positions : List InvoicePositionDTO
  correction_reason : Option String
  invoice_id : Option Int
  from_invoice_id : Option Int
  id : Option Int
  created_at : Option String
  updated_at : Option String
  invoice_url : Option String
deriving DecidableEq, Repr

/-- A pydantic `ValidationError` raised at construction / validation
time, identified by the failing constraint and its location. -/
inductive PydanticValidationError where
  | missing (loc : List String)           -- required field absent
  | greaterThan (loc : List String)       -- `Field(gt=...)` violated
  | tooShort (loc : List String)          -- `conlist(min_length=...)` violated
  | typeError (loc : List String)         -- value of the wrong type
deriving DecidableEq, Repr

/-- Constructing an `InvoicePositionDTO(...)` from typed keyword
arguments: pydantic enforces the field constraint `quantity > 0`
(`Field(..., gt=0)`, models.py line 35).  No other value-level
constraint exists on the model; in particular nothing relaxes the
quantity constraint for correction positions. -/
def InvoicePositionDTO.construct (p : InvoicePositionDTO) :
    Except PydanticValidationError InvoicePositionDTO :=
  if 0 < p.quantity then .ok p
  else .error (.greaterThan ["quantity"])

/-- Constructing an `InvoiceDTO(...)` from typed keyword arguments whose
positions are already-validated `InvoicePositionDTO` instances: pydantic
enforces `conlist(..., min_length=1)` on `positions` (models.py line 70)
and does not re-validate model instances. -/
def InvoiceDTO.construct (d : InvoiceDTO) :
    Except PydanticValidationError InvoiceDTO :=
  if d.positions.isEmpty then .error (.tooShort ["positions"])
  else .ok d

/- ------------------------------------------------------------------
   pydantic serialisation: model_dump(by_alias=True, exclude_none=True)
   ------------------------------------------------------------------
   No field of the models declares an alias, so `by_alias=True` is the
   identity on names; `exclude_none=True` drops every field whose value
   is None.  Dumps list the fields in declaration order. -/

/-- Keep the fields that hold a value (`exclude_none=True`). -/
def collect : List (String × Option Json) → Dict
  | [] => []
  | (k, some v) :: rest => (k, v) :: collect rest
  | (_, none) :: rest => collect rest

/-- Serialisation `CorrectionAttributesDTO.model_dump(by_alias=True, exclude_none=True)`:
`kind` is `exclude=True` and never appears. -/
def CorrectionAttributesDTO.model_dump (a : CorrectionAttributesDTO) : Dict :=
  collect [
    ("name", a.name.map .str),
    ("quantity", a.quantity.map .num),
    ("total_price_gross", a.total_price_gross.map NumOrStr.toJson),
    ("tax", a.tax.map .num)]

/-- Serialisation `InvoicePositionDTO.model_dump(by_alias=True, exclude_none=True)`. -/
def InvoicePositionDTO.model_dump (p : InvoicePositionDTO) : Dict :=
  collect [
    ("id", p.id.map (fun n => .num (n : Rat))),
    ("name", some (.str p.name)),
    ("quantity", some (.num p.quantity)),
    ("total_price_gross", some p.total_price_gross.toJson),
    ("tax", some p.tax.toJson),
    ("kind", p.kind.map .str),
    ("correction_before_attributes",
      p.correction_before_attributes.map (fun a => .obj a.model_dump)),
    ("correction_after_attributes",
      p.correction_after_attributes.map (fun a => .obj a.model_dump))]

/-- Serialisation `InvoiceDTO.model_dump(by_alias=True, exclude_none=True)`. -/
def InvoiceDTO.model_dump (d : InvoiceDTO) : Dict :=
  collect [
    ("kind", some (.str d.kind.toStr)),
    ("sell_date", some (.date d.sell_date)),
    ("issue_date", some (.date d.issue_date)),
    ("seller_name", d.seller_name.map .str),
    ("seller_tax_no", d.seller_tax_no.map .str),
    ("buyer_name", d.buyer_name.map .str),
    ("buyer_tax_no", d.buyer_tax_no.map .str),
    ("buyer_email", d.buyer_email.map .str),
    ("payment_to", d.payment_to.map .date),
    ("payment_method", d.payment_method.map .str),
    ("positions", some (.arr (d.positions.map (fun p => .obj p.model_dump)))),
    ("correction_reason", d.correction_reason.map .str),
    ("invoice_id", d.invoice_id.map (fun n => .num (n : Rat))),
    ("from_invoice_id", d.from_invoice_id.map (fun n => .num (n : Rat))),
    ("id", d.id.map (fun n => .num (n : Rat))),
    ("created_at", d.created_at.map .str),
    ("updated_at", d.updated_at.map .str),
    ("invoice_url", d.invoice_url.map .str)]

/- ------------------------------------------------------------------
   pydantic validation: Model.model_validate(data)
   ------------------------------------------------------------------ -/

/-- Parse an optional `str` field: absent or null gives None. -/
def parseOptStr (loc : List String) : Option Json → Except PydanticValidationError (Option String)
  | none => .ok none
  | some .null => .ok none
  | some (.str s) => .ok (some s)
  | some _ => .error (.typeError loc)

/-- Parse an optional numeric (`int`/`float`) field. -/
def parseOptRat (loc : List String) : Option Json → Except PydanticValidationError (Option Rat)
  | none => .ok none
  | some .null => .ok none
  | some (.num q) => .ok (some q)
  | some _ => .error (.typeError loc)

/-- Parse an optional `int` field: a number is accepted when integral. -/
def parseOptInt (loc : List String) : Option Json → Except PydanticValidationError (Option Int)
  | none => .ok none
  | some .null => .ok none
  | some (.num q) => if q.den = 1 then .ok (some q.num) else .error (.typeError loc)
  | some _ => .error (.typeError loc)

/-- Parse an optional `date` field. -/
def parseOptDate (loc : List String) : Option Json → Except PydanticValidationError (Option PyDate)
  | none => .ok none
  | some .null => .ok none
  | some (.date dt) => .ok (some dt)
  | some _ => .error (.typeError loc)

/-- Parse a required `str` field. -/
def parseReqStr (loc : List String) : Option Json → Except PydanticValidationError String
  | none => .error (.missing loc)
  | some (.str s) => .ok s
  | some _ => .error (.typeError loc)

/-- Parse a required `date` field. -/
def parseReqDate (loc : List String) : Option Json → Except PydanticValidationError PyDate
  | none => .error (.missing loc)
  | some (.date dt) => .ok dt
  | some _ => .error (.typeError loc)

/-- Parse a required `Union[int, float, str]` / `Union[str, float]` field. -/
def parseNumOrStr (loc : List String) : Option Json → Except PydanticValidationError NumOrStr
  | none => .error (.missing loc)
  | some (.num q) => .ok (.num q)
  | some (.str s) => .ok (.str s)
  | some _ => .error (.typeError loc)

/-- Parse an optional `Union[str, float]` field. -/
def parseOptNumOrStr (loc : List String) : Option Json → Except PydanticValidationError (Option NumOrStr)
  | none => .ok none
  | some .null => .ok none
  | some (.num q) => .ok (some (.num q))
  | some (.str s) => .ok (some (.str s))
  | some _ => .error (.typeError loc)

/-- Parse the required `kind` field against the `DocumentKind` literal. -/
def parseKind (loc : List String) : Option Json → Except PydanticValidationError DocumentKind
  | none => .error (.missing loc)
  | some (.str s) =>
      match DocumentKind.ofStr? s with
      | some k => .ok k
      | none => .error (.typeError loc)
  | some _ => .error (.typeError loc)

/-- Validation `CorrectionAttributesDTO.model_validate`: `tax` defaults to `23.0`
and `kind` to `'correction_before'` when absent. -/
def CorrectionAttributesDTO.model_validate (j : Json) :
    Except PydanticValidationError CorrectionAttributesDTO :=
  match j with
  | .obj fs => do
    let name ← parseOptStr ["name"] (dictLookup fs "name")
    let quantity ← parseOptRat ["quantity"] (dictLookup fs "quantity")
    let total_price_gross ← parseOptNumOrStr ["total_price_gross"] (dictLookup fs "total_price_gross")
    let tax ←
      match dictLookup fs "tax" with
      | none => .ok (some (23 : Rat))
      | some .null => .ok none
      | some (.num q) => .ok (some q)
      | some _ => .error (.typeError ["tax"])
    let kind ←
      match dictLookup fs "kind" with
      | none => .ok (some "correction_before")
      | some .null => .ok none
      | some (.str s) => .ok (some s)
      | some _ => .error (.typeError ["kind"])
    pure ⟨name, quantity, total_price_gross, tax, kind⟩
  | _ => .error (.typeError [])

/-- Parse an optional nested `CorrectionAttributesDTO`. -/
def parseOptCorrection (loc : List String) :
    Option Json → Except PydanticValidationError (Option CorrectionAttributesDTO)
  | none => .ok none
  | some .null => .ok none
  | some j =>
      match CorrectionAttributesDTO.model_validate j with
      | .ok a => .ok (some a)
      | .error _ => .error (.typeError loc)

/-- Validation `InvoicePositionDTO.model_validate`: field parsing plus the
`Field(..., gt=0)` constraint on `quantity`. -/
def InvoicePositionDTO.model_validate (j : Json) :
    Except PydanticValidationError InvoicePositionDTO :=
  match j with
  | .obj fs => do
    let id ← parseOptInt ["id"] (dictLookup fs "id")
    let name ← parseReqStr ["name"] (dictLookup fs "name")
    let quantity ←
      match dictLookup fs "quantity" with
      | none => .error (.missing ["quantity"])
      | some (.num q) =>
          if 0 < q then .ok q else .error (.greaterThan ["quantity"])
      | some _ => .error (.typeError ["quantity"])
    let total_price_gross ← parseNumOrStr ["total_price_gross"] (dictLookup fs "total_price_gross")
    let tax ← parseNumOrStr ["tax"] (dictLookup fs "tax")
    let kind ← parseOptStr ["kind"] (dictLookup fs "kind")
    let correction_before_attributes ←
      parseOptCorrection ["correction_before_attributes"]
        (dictLookup fs "correction_before_attributes")
    let correction_after_attributes ←
      parseOptCorrection ["correction_after_attributes"]
        (dictLookup fs "correction_after_attributes")
    pure ⟨id, name, quantity, total_price_gross, tax, kind,
          correction_before_attributes, correction_after_attributes⟩
  | _ => .error (.typeError [])

/-- Validate the elements of the `positions` array one by one. -/
def validatePositions : List Json → Except PydanticValidationError (List InvoicePositionDTO)
  | [] => .ok []
  | j :: rest => do
    let p ← InvoicePositionDTO.model_validate j
    let ps ← validatePositions rest
    pure (p :: ps)

/-- Validation `InvoiceDTO.model_validate`: field parsing in declaration order,
the `conlist(..., min_length=1)` constraint on `positions`, the
`'Przelew'` default on `payment_method`, with unknown fields ignored
(`extra = 'ignore'`). -/
def InvoiceDTO.model_validate (j : Json) :
    Except PydanticValidationError InvoiceDTO :=
  match j with
  | .obj fs => do
    let kind ← parseKind ["kind"] (dictLookup fs "kind")
    let sell_date ← parseReqDate ["sell_date"] (dictLookup fs "sell_date")
    let issue_date ← parseReqDate ["issue_date"] (dictLookup fs "issue_date")
    let seller_name ← parseOptStr ["seller_name"] (dictLookup fs "seller_name")
    let seller_tax_no ← parseOptStr ["seller_tax_no"] (dictLookup fs "seller_tax_no")
    let buyer_name ← parseOptStr ["buyer_name"] (dictLookup fs "buyer_name")
    let buyer_tax_no ← parseOptStr ["buyer_tax_no"] (dictLookup fs "buyer_tax_no")
    let buyer_email ← parseOptStr ["buyer_email"] (dictLookup fs "buyer_email")
    let payment_to ← parseOptDate ["payment_to"] (dictLookup fs "payment_to")
    let payment_method ←
      match dictLookup fs "payment_method" with
      | none => .ok (some "Przelew")
      | some .null => .ok none
      | some (.str s) => .ok (some s)
      | some _ => .error (.typeError ["payment_method"])
    let positions ←
      match dictLookup fs "positions" with
      | none => .error (.missing ["positions"])
      | some (.arr elems) => do
          let ps ← validatePositions elems
          if ps.isEmpty then .error (.tooShort ["positions"])
          else pure ps
      | some _ => .error (.typeError ["positions"])
    let correction_reason ← parseOptStr ["correction_reason"] (dictLookup fs "correction_reason")
    let invoice_id ← parseOptInt ["invoice_id"] (dictLookup fs "invoice_id")
    let from_invoice_id ← parseOptInt ["from_invoice_id"] (dictLookup fs "from_invoice_id")
    let id ← parseOptInt ["id"] (dictLookup fs "id")
    let created_at ← parseOptStr ["created_at"] (dictLookup fs "created_at")
    let updated_at ← parseOptStr ["updated_at"] (dictLookup fs "updated_at")
    let invoice_url ← parseOptStr ["invoice_url"] (dictLookup fs "invoice_url")
    pure ⟨kind, sell_date, issue_date, seller_name, seller_tax_no, buyer_name,
          buyer_tax_no, buyer_email, payment_to, payment_method, positions,
          correction_reason, invoice_id, from_invoice_id, id, created_at,
          updated_at, invoice_url⟩
  | _ => .error (.typeError [])

/- ------------------------------------------------------------------
   apifakturownia/api_client.py - InvoicesEndpoint (lines 10-82)
   ------------------------------------------------------------------ -/

/-- Zero-padding for `date.isoformat()`. -/
def padNat (width n : Nat) : String :=
  let s := toString n
  if s.length < width then String.mk (List.replicate (width - s.length) '0') ++ s else s

/-- Python `datetime.date.isoformat()`: `YYYY-MM-DD`. -/
def PyDate.isoformat (d : PyDate) : String :=
  padNat 4 d.year ++ "-" ++ padNat 2 d.month ++ "-" ++ padNat 2 d.day

/-- The result of an endpoint operation that parses the response into an
`InvoiceDTO`. -/
inductive InvoiceCallResult where
  | parsed (d : InvoiceDTO)
  | parseFailed (e : PydanticValidationError)
  | requestFailed (o : DispatchOutcome)

/-- Operation `InvoicesEndpoint.create_invoice` (lines 17-21): wraps the dump in the
`{'invoice': ...}` envelope, dispatches `POST /invoices.json` and
validates the response body as an `InvoiceDTO`. -/
def create_invoice (c : FakturowniaApiClient) (invoice_data : InvoiceDTO)
    (net : NetResult) : InvoiceCallResult :=
  let payload : Dict := [("invoice", .obj invoice_data.model_dump)]
  match makeRequest c "POST" "/invoices.json" none (some payload) net with
  | .ok (some j) =>
      match InvoiceDTO.model_validate j with
      | .ok d => .parsed d
      | .error e => .parseFailed e
  | .ok none => .parseFailed (.typeError [])
  | o => .requestFailed o

/-- The query-parameter dict built by `InvoicesEndpoint.list_invoices`
(lines 33-45): period/page/per_page with the `min(per_page, 100)` clamp,
optional ISO dates, the `include_positions` flag as the literal string
`'true'`, and the caller's extra keyword filters merged by
`params.update(kwargs)`. -/
def listInvoicesParams (period : String) (date_from date_to : Option PyDate)
    (page per_page : Int) (include_positions : Bool) (kwargs : Dict) : Dict :=
  let params : Dict := [
    ("period", .str period),
    ("page", .num (page : Rat)),
    ("per_page", .num ((min per_page 100 : Int) : Rat))]
  let params := match date_from with
    | some d => dictSet params "date_from" (.str d.isoformat)
    | none => params
  let params := match date_to with
    | some d => dictSet params "date_to" (.str d.isoformat)
    | none => params
  let params := if include_positions then
    dictSet params "include_positions" (.str "true") else params
  dictUpdate params kwargs

/-- The keyword parameter names of `_make_request` after `method` and
`endpoint` (api_client.py lines 100-102): `request_params` and
`json_data`. -/
def makeRequestParamNames : List String := ["request_params", "json_data"]

/-- The outcome of a Python call
`client._make_request(method, endpoint, **kwargs)`: Python binds each
keyword argument against the parameter names, and a keyword that
matches no parameter raises `TypeError: unexpected keyword argument`
before the body of `_make_request` ever runs. -/
inductive CallOutcome where
  | returned (o : DispatchOutcome)
  | typeErrorUnexpectedKeyword (kw : String)

/-- Calling `_make_request` with keyword arguments, with Python's
keyword binding made explicit: an unknown keyword raises TypeError;
otherwise the body runs with the bound `request_params`/`json_data`. -/
def callMakeRequestKw (c : FakturowniaApiClient) (method endpoint : String)
    (kwargs : List (String × Dict)) (net : NetResult) : CallOutcome :=
  match kwargs.find? (fun p => !(makeRequestParamNames.contains p.1)) with
  | some p => .typeErrorUnexpectedKeyword p.1
  | none =>
      .returned (makeRequest c method endpoint
        ((kwargs.find? (fun p => p.1 = "request_params")).map (fun p => p.2))
        ((kwargs.find? (fun p => p.1 = "json_data")).map (fun p => p.2)) net)

/-- The result of `list_invoices`: the decoded raw entries, a shape or
request failure, or the `TypeError` raised by the call on line 47. -/
inductive ListCallResult where
  | entries (xs : List Json)
  | badShape (payload : Option Json)
  | requestFailed (o : DispatchOutcome)
  | typeErrorRaised (kw : String)

/-- Operation `InvoicesEndpoint.list_invoices` (lines 30-50): builds the
query parameters, then calls
`self.client._make_request('GET', self.endpoint_base, params=params)`
(line 47).  `_make_request` has no parameter named `params` (its
query-parameter argument is `request_params`, line 101, used as such
throughout its body), so every call raises `TypeError` before any
request is built or sent.

Modelled from the spec: on the unreachable path where the call returns,
the truncated bare `return` on line 50 is modelled per the spec as
returning the decoded list of raw entries. -/
def list_invoices (c : FakturowniaApiClient) (period : String)
    (date_from date_to : Option PyDate) (page per_page : Int)
    (include_positions : Bool) (kwargs : Dict) (net : NetResult) : ListCallResult :=
  let params := listInvoicesParams period date_from date_to page per_page
    include_positions kwargs
  match callMakeRequestKw c "GET" "/invoices.json" [("params", params)] net with
  | .typeErrorUnexpectedKeyword kw => .typeErrorRaised kw
  | .returned (.ok (some (.arr xs))) => .entries xs
  | .returned (.ok payload) => .badShape payload
  | .returned o => .requestFailed o

/-- The result of `void_invoice`: `True` on success, a propagated
dispatch failure, or the `TypeError` raised by the call on line 81. -/
inductive VoidCallResult where
  | succeeded
  | requestFailed (o : DispatchOutcome)
  | typeErrorRaised (kw : String)

/-- Operation `InvoicesEndpoint.void_invoice` (lines 71-82): builds
`params = {'status': VOID_STATUS}` for
`POST /invoices/{id}/change_status.json`, never uses `reason`
(`if reason: pass`), then calls
`self.client._make_request('POST', endpoint, params=params)` (line 81).
`_make_request` has no parameter named `params` (its query-parameter
argument is `request_params`, line 101), so every call raises
`TypeError` and no POST is ever issued. -/
def void_invoice (c : FakturowniaApiClient) (invoice_id : Int)
    (reason : Option String) (net : NetResult) : VoidCallResult :=
  let endpoint := "/invoices/" ++ toString invoice_id ++ "/change_status.json"
  let params : Dict := [("status", .str VOID_STATUS)]
  -- if reason: pass  (the reason is dropped)
  match callMakeRequestKw c "POST" endpoint [("params", params)] net with
  | .typeErrorUnexpectedKeyword kw => .typeErrorRaised kw
  | .returned (.ok _) => .succeeded
  | .returned o => .requestFailed o

/-- Operation `InvoicesEndpoint.delete_invoice_permanently` (lines 65-69): the
outgoing request `DELETE /invoices/{id}.json` with no caller params. -/
def delete_invoice_request (c : FakturowniaApiClient) (invoice_id : Int) : OutRequest :=
  prepareRequest c "DELETE" ("/invoices/" ++ toString invoice_id ++ ".json") none none

/- ------------------------------------------------------------------
   Auxiliary definitions used by the statements below
   ------------------------------------------------------------------ -/

/-- Whether a response body is non-empty but undecodable. -/
def HttpBody.isInvalid : HttpBody → Bool
  | .invalid _ => true
  | _ => false

/-- The value of `response.json() if response.content else None` on a decodable body. -/
def HttpBody.decoded : HttpBody → Option Json
  | .json j => some j
  | _ => none

/-- The document parsed by an `InvoiceCallResult`, when there is one. -/
def InvoiceCallResult.parsedDoc : InvoiceCallResult → Option InvoiceDTO
  | .parsed d => some d
  | _ => none

/-- A correction snapshot whose serialised form parses back to itself:
`tax` must hold a value (it is re-defaulted to `23.0` when absent) and
`kind` must be the default `'correction_before'` (it is `exclude=True`,
so any other value is lost by `model_dump`). -/
def CorrectionAttributesDTO.dumpStable (a : CorrectionAttributesDTO) : Bool :=
  a.tax.isSome && a.kind == some "correction_before"

/-- A position whose serialised form parses back to itself: the
`gt=0` constraint must hold and both snapshots must be stable. -/
def InvoicePositionDTO.dumpStable (p : InvoicePositionDTO) : Bool :=
  decide (0 < p.quantity)
    && (match p.correction_before_attributes with
        | some a => a.dumpStable
        | none => true)
    && (match p.correction_after_attributes with
        | some a => a.dumpStable
        | none => true)

/-- A document whose serialised form parses back to itself: valid
(non-empty positions, positive quantities), `payment_method` holding a
value (it is re-defaulted to `'Przelew'` when absent) and every
position stable. -/
def InvoiceDTO.dumpStable (d : InvoiceDTO) : Bool :=
  !d.positions.isEmpty
    && d.payment_method.isSome
    && d.positions.all (fun p => p.dumpStable)

/-- A valid correction invoice whose after-snapshot carries the
caller-supplied `kind='correction_after'`. -/
def exampleCorrectionDoc : InvoiceDTO :=
  ⟨.correction, ⟨2024, 1, 15⟩, ⟨2024, 1, 15⟩, none, none, none, none, none,
    none, some "Przelew",
    [⟨none, "korekta", 1, .num 123, .num 23, some "correction", none,
      some ⟨some "po", some 2, some (.num 246), some 23, some "correction_after"⟩⟩],
    some "pomyłka", some 7, none, none, none, none, none⟩

/-- The document `exampleCorrectionDoc` with the after-snapshot `kind` re-defaulted
to `'correction_before'`, as the round trip produces it. -/
def exampleCorrectionDocReparsed : InvoiceDTO :=
  ⟨.correction, ⟨2024, 1, 15⟩, ⟨2024, 1, 15⟩, none, none, none, none, none,
    none, some "Przelew",
    [⟨none, "korekta", 1, .num 123, .num 23, some "correction", none,
      some ⟨some "po", some 2, some (.num 246), some 23, some "correction_before"⟩⟩],
    some "pomyłka", some 7, none, none, none, none, none⟩

/-- The mocked create response echoing the serialised form of
`exampleCorrectionDoc`. -/
def exampleCorrectionEcho : NetResult :=
  .response ⟨200, .json (.obj exampleCorrectionDoc.model_dump), "ok"⟩

/- ==================================================================
   Theorems
   ================================================================== -/

-- sanity checks that the models evaluate
example : dictLookup [("a", Json.num 1), ("b", Json.num 2)] "b" = some (Json.num 2) := rfl
example : dictSet [("a", Json.num 1)] "a" (Json.num 3) = [("a", Json.num 3)] := rfl
example : dictSet [("a", Json.num 1)] "b" (Json.num 3)
    = [("a", Json.num 1), ("b", Json.num 3)] := rfl

theorem dictLookup_dictSet (d : Dict) (k k' : String) (v : Json) :
    dictLookup (dictSet d k v) k' = if k = k' then some v else dictLookup d k' := by
  induction d with
  | nil =>
    by_cases h : k = k' <;> simp [dictSet, dictLookup, h]
  | cons hd tl ih =>
    obtain ⟨k2, v2⟩ := hd
    by_cases h1 : k2 = k
    · subst h1
      by_cases h2 : k2 = k'
      · subst h2
        simp [dictSet, dictLookup]
      · have h2' : ¬ k2 = k' := h2
        simp [dictSet, dictLookup, h2']
    · by_cases h2 : k2 = k'
      · subst h2
        have hne : ¬ k2 = k := h1
        have hne' : ¬ k = k2 := fun h => hne h.symm
        simp [dictSet, dictLookup, hne, hne']
      · simp [dictSet, dictLookup, h1, h2, ih]

theorem dictLookup_dictUpdate_notin (d : Dict) (other : Dict) (k : String)
    (h : dictHasKey other k = false) :
    dictLookup (dictUpdate d other) k = dictLookup d k := by
  induction other generalizing d with
  | nil => simp [dictUpdate]
  | cons hd tl ih =>
    obtain ⟨k2, v2⟩ := hd
    simp only [dictHasKey, List.any_cons, Bool.or_eq_false_iff] at h
    obtain ⟨h1, h2⟩ := h
    have hne : ¬ k2 = k := by
      intro he
      simp [he] at h1
    have := ih (dictSet d k2 v2) (by simpa [dictHasKey] using h2)
    simp only [dictUpdate, List.foldl_cons] at *
    rw [this, dictLookup_dictSet, if_neg hne]

/- ------------------------------------------------------------------
   C10 - undecodable non-2xx bodies escape the taxonomy
   ------------------------------------------------------------------ -/

/-- C10: for every HTTP response with a non-2xx status and a non-empty
body that is not valid JSON, the dispatcher raises no error of the typed
taxonomy: the unguarded `response.json()` computing the details payload
raises an untyped JSON decode exception that escapes to the caller,
carrying neither status code nor details. -/
theorem c10_undecodable_error_body_escapes_untyped
    (status : Nat) (raw text : String)
    (h2xx : ¬ (200 ≤ status ∧ status < 300)) :
    handleResponse ⟨status, .invalid raw, text⟩ = .jsonDecodeEscape raw ∧
    (handleResponse ⟨status, .invalid raw, text⟩).isTypedError = false := by
  constructor <;> simp [handleResponse, h2xx, DispatchOutcome.isTypedError]

/-- Witness for C10 at status 400 with body `<html>error</html>`. -/
theorem c10_undecodable_error_body_escapes_untyped_witness :
    handleResponse ⟨400, .invalid "<html>error</html>", "<html>error</html>"⟩
      = .jsonDecodeEscape "<html>error</html>" ∧
    (handleResponse ⟨400, .invalid "<html>error</html>", "<html>error</html>"⟩).isTypedError
      = false :=
  c10_undecodable_error_body_escapes_untyped 400 "<html>error</html>" "<html>error</html>"
    (by decide)

/- ------------------------------------------------------------------
   C2 - status-to-taxonomy mapping of non-2xx responses
   ------------------------------------------------------------------ -/

/-- C2, counterexample: the claim quantifies over every non-2xx
response, but at status 400 with a non-empty body that is not valid
JSON the dispatcher raises no typed error at all (the decode exception
escapes), where the claim promises a Validation error. -/
theorem c2_counterexample_status400_undecodable_body :
    handleResponse ⟨400, .invalid "<html>bad gateway</html>", "<html>bad gateway</html>"⟩
      = .jsonDecodeEscape "<html>bad gateway</html>" ∧
    (handleResponse ⟨400, .invalid "<html>bad gateway</html>", "<html>bad gateway</html>"⟩).isTypedError
      = false :=
  ⟨rfl, rfl⟩

/-- C2 (amended): for every HTTP response with a non-2xx status whose
body is empty or decodes as JSON, dispatch fails with the error kind
determined by the status code - 400 gives ValidationError, 401/403
AuthenticationError, 404 ResourceNotFoundError, 500-599 ServerError and
any other non-2xx status the base FakturowniaAPIException - and the
raised error carries the response status code and, as details, the
decoded error body when that body is truthy (the constructor's
`details or {}` turns a missing or falsy payload into the empty dict). -/
theorem c2_status_error_mapping (r : HttpResponse)
    (h2xx : ¬ (200 ≤ r.status ∧ r.status < 300))
    (hb : r.body.isInvalid = false) :
    (r.status = 400 →
      handleResponse r =
        .apiError (mkException .validation (errorMessage r) (some r.status) r.body.decoded)) ∧
    ((r.status = 401 ∨ r.status = 403) →
      handleResponse r =
        .apiError (mkException .authentication (errorMessage r) (some r.status) r.body.decoded)) ∧
    (r.status = 404 →
      handleResponse r =
        .apiError (mkException .resourceNotFound (errorMessage r) (some r.status) r.body.decoded)) ∧
    (500 ≤ r.status ∧ r.status < 600 →
      handleResponse r =
        .apiError (mkException .server (errorMessage r) (some r.status) r.body.decoded)) ∧
    (r.status ≠ 400 → ¬ (r.status = 401 ∨ r.status = 403) → r.status ≠ 404 →
      ¬ (500 ≤ r.status ∧ r.status < 600) →
      handleResponse r =
        .apiError (mkException .base (errorMessage r) (some r.status) r.body.decoded)) := by
  obtain ⟨status, body, text⟩ := r
  dsimp only at h2xx hb ⊢
  refine ⟨?_, ?_, ?_, ?_, ?_⟩
  · intro h
    subst h
    cases body with
    | invalid raw => simp [HttpBody.isInvalid] at hb
    | empty => simp [handleResponse, HttpBody.decoded]
    | json j => simp [handleResponse, HttpBody.decoded]
  · intro h
    have hne400 : status ≠ 400 := by rcases h with h | h <;> omega
    cases body with
    | invalid raw => simp [HttpBody.isInvalid] at hb
    | empty =>
      rcases h with h | h <;> subst h <;> simp [handleResponse, HttpBody.decoded]
    | json j =>
      rcases h with h | h <;> subst h <;> simp [handleResponse, HttpBody.decoded]
  · intro h
    subst h
    cases body with
    | invalid raw => simp [HttpBody.isInvalid] at hb
    | empty => simp [handleResponse, HttpBody.decoded]
    | json j => simp [handleResponse, HttpBody.decoded]
  · intro h
    have h400 : status ≠ 400 := by omega
    have h401 : status ≠ 401 := by omega
    have h403 : status ≠ 403 := by omega
    have h404 : status ≠ 404 := by omega
    cases body with
    | invalid raw => simp [HttpBody.isInvalid] at hb
    | empty => simp [handleResponse, h2xx, h400, h401, h403, h404, h, HttpBody.decoded]
    | json j => simp [handleResponse, h2xx, h400, h401, h403, h404, h, HttpBody.decoded]
  · intro h400 h4013 h404 h5xx
    have h401 : status ≠ 401 := fun h => h4013 (Or.inl h)
    have h403 : status ≠ 403 := fun h => h4013 (Or.inr h)
    cases body with
    | invalid raw => simp [HttpBody.isInvalid] at hb
    | empty => simp [handleResponse, h2xx, h400, h401, h403, h404, h5xx, HttpBody.decoded]
    | json j => simp [handleResponse, h2xx, h400, h401, h403, h404, h5xx, HttpBody.decoded]

/-- Witness for C2 at the spec's scenario: HTTP 404 with decoded body
`{"error": "not found"}` yields a ResourceNotFoundError carrying status
404 and that body as details. -/
theorem c2_status_error_mapping_witness :
    handleResponse ⟨404, .json (.obj [("error", .str "not found")]), "error body"⟩
      = .apiError (mkException .resourceNotFound
          (errorMessage ⟨404, .json (.obj [("error", .str "not found")]), "error body"⟩)
          (some 404)
          (some (.obj [("error", .str "not found")]))) :=
  (c2_status_error_mapping ⟨404, .json (.obj [("error", .str "not found")]), "error body"⟩
    (by decide) rfl).2.2.1 rfl

/- ------------------------------------------------------------------
   C1 - method-dependent token injection
   ------------------------------------------------------------------ -/

/-- C1: for every dispatched request whose caller did not itself pass an
`api_token` entry, the token is injected according to the HTTP method:
for POST and PUT it appears as the `api_token` field of the outgoing
JSON body and not in the query string; for GET and DELETE it appears as
the `api_token` query-string parameter and not in the body. -/
theorem c1_token_injection_by_method (c : FakturowniaApiClient)
    (method endpoint : String) (rp rj : Option Dict)
    (hp : dictHasKey (rp.getD []) "api_token" = false)
    (hj : dictHasKey (rj.getD []) "api_token" = false) :
    ((method = "POST" ∨ method = "PUT") →
      dictLookup (prepareRequest c method endpoint rp rj).json "api_token"
          = some (.str c.api_token) ∧
      dictHasKey (prepareRequest c method endpoint rp rj).params "api_token" = false) ∧
    ((method = "GET" ∨ method = "DELETE") →
      dictLookup (prepareRequest c method endpoint rp rj).params "api_token"
          = some (.str c.api_token) ∧
      dictHasKey (prepareRequest c method endpoint rp rj).json "api_token" = false) := by
  constructor
  · intro hm
    have hcond : (method = "POST" ∨ method = "PUT") = True := by simp [hm]
    cases rp <;> cases rj <;>
      simp_all [prepareRequest, dictLookup_dictSet, Option.getD]
  · intro hm
    have hPost : method ≠ "POST" := by
      rcases hm with h | h <;> subst h <;> decide
    have hPut : method ≠ "PUT" := by
      rcases hm with h | h <;> subst h <;> decide
    have hcond : (method = "GET" ∨ method = "DELETE") = True := by simp [hm]
    cases rp <;> cases rj <;>
      simp_all [prepareRequest, dictLookup_dictSet, Option.getD]

/-- Witness for C1: a POST and a GET request of a client with token
`seCrEt`, each with one caller-supplied mapping. -/
theorem c1_token_injection_by_method_witness :
    (dictLookup (prepareRequest ⟨"https://x.fakturownia.pl", "seCrEt", 10⟩ "POST" "/invoices.json"
        (some [("page", .num 1)]) (some [("invoice", .obj [])])).json "api_token"
      = some (.str "seCrEt") ∧
     dictHasKey (prepareRequest ⟨"https://x.fakturownia.pl", "seCrEt", 10⟩ "POST" "/invoices.json"
        (some [("page", .num 1)]) (some [("invoice", .obj [])])).params "api_token" = false) ∧
    (dictLookup (prepareRequest ⟨"https://x.fakturownia.pl", "seCrEt", 10⟩ "GET" "/invoices.json"
        (some [("page", .num 1)]) none).params "api_token"
      = some (.str "seCrEt") ∧
     dictHasKey (prepareRequest ⟨"https://x.fakturownia.pl", "seCrEt", 10⟩ "GET" "/invoices.json"
        (some [("page", .num 1)]) none).json "api_token" = false) :=
  ⟨(c1_token_injection_by_method ⟨"https://x.fakturownia.pl", "seCrEt", 10⟩ "POST" "/invoices.json"
      (some [("page", .num 1)]) (some [("invoice", .obj [])]) (by decide) (by decide)).1
      (Or.inl rfl),
   (c1_token_injection_by_method ⟨"https://x.fakturownia.pl", "seCrEt", 10⟩ "GET" "/invoices.json"
      (some [("page", .num 1)]) none (by decide) (by decide)).2
      (Or.inl rfl)⟩

/- ------------------------------------------------------------------
   C8 - void_invoice crashes before issuing any request
   ------------------------------------------------------------------ -/

/-- C8: the claim promises that `void(id)` issues
`POST /invoices/{id}/change_status.json` with the voided-status query
parameter and a token-only body; the code never issues it: the call on
line 81 passes the keyword `params=` to `_make_request`, whose
parameter is named `request_params` (line 101), so every call - e.g.
`void_invoice(42)` - raises `TypeError` before any request is made,
whatever the `reason`. -/
theorem c8_void_crashes_before_dispatch (c : FakturowniaApiClient)
    (invoice_id : Int) (reason : Option String) (net : NetResult) :
    void_invoice c invoice_id reason net = .typeErrorRaised "params" := rfl

/- ------------------------------------------------------------------
   C9 - the caller's mappings are never mutated
   ------------------------------------------------------------------ -/

theorem DictHeap.read_append_lt (h : DictHeap) (d : Dict) (r : Nat)
    (hr : r < h.length) : (h ++ [d]).read r = h.read r := by
  induction h generalizing r with
  | nil => exact absurd hr (by simp)
  | cons hd tl ih =>
    cases r with
    | zero => rfl
    | succ n =>
      have : n < tl.length := by simpa using hr
      simpa [DictHeap.read] using ih n this

theorem DictHeap.read_write_ne (h : DictHeap) (s : Nat) (d : Dict) (r : Nat)
    (hne : r ≠ s) : (h.write s d).read r = h.read r := by
  induction h generalizing r s with
  | nil => simp [DictHeap.write, DictHeap.read]
  | cons hd tl ih =>
    cases s with
    | zero =>
      cases r with
      | zero => exact absurd rfl hne
      | succ n => simp [DictHeap.write, DictHeap.read]
    | succ m =>
      cases r with
      | zero => simp [DictHeap.write, DictHeap.read]
      | succ n =>
        have : n ≠ m := fun h => hne (by simp [h])
        simpa [DictHeap.write, DictHeap.read] using ih m n this

/-- C9: for every call to the dispatcher with caller-supplied
query-parameter and JSON-body dicts, the caller's original objects are
unchanged after the call: lines 105-106 copy both mappings, and the
token injection mutates only the copies. -/
theorem c9_caller_mappings_not_mutated (c : FakturowniaApiClient)
    (method : String) (h : DictHeap) (pr jr : Nat)
    (hpr : pr < h.length) (hjr : jr < h.length) :
    (makeRequestHeap c method h (some pr) (some jr)).1.read pr = h.read pr ∧
    (makeRequestHeap c method h (some pr) (some jr)).1.read jr = h.read jr := by
  have hlen1 : (h ++ [if (h.read pr).isEmpty then [] else h.read pr]).length = h.length + 1 := by
    simp
  constructor <;>
  · simp only [makeRequestHeap, DictHeap.alloc]
    split
    · rw [DictHeap.read_write_ne, DictHeap.read_append_lt, DictHeap.read_append_lt]
      all_goals try simp
      all_goals omega
    · split
      · rw [DictHeap.read_write_ne, DictHeap.read_append_lt, DictHeap.read_append_lt]
        all_goals try simp
        all_goals omega
      · rw [DictHeap.read_append_lt, DictHeap.read_append_lt]
        all_goals try simp
        all_goals omega

/-- Witness for C9: a heap with one caller params dict and one caller
body dict; after a POST dispatch both originals still hold their
contents. -/
theorem c9_caller_mappings_not_mutated_witness :
    (makeRequestHeap ⟨"https://x.fakturownia.pl", "tok", 10⟩ "POST"
        [[("page", .num 1)], [("invoice", .obj [])]] (some 0) (some 1)).1.read 0
      = DictHeap.read [[("page", .num 1)], [("invoice", .obj [])]] 0 ∧
    (makeRequestHeap ⟨"https://x.fakturownia.pl", "tok", 10⟩ "POST"
        [[("page", .num 1)], [("invoice", .obj [])]] (some 0) (some 1)).1.read 1
      = DictHeap.read [[("page", .num 1)], [("invoice", .obj [])]] 1 :=
  c9_caller_mappings_not_mutated ⟨"https://x.fakturownia.pl", "tok", 10⟩ "POST"
    [[("page", .num 1)], [("invoice", .obj [])]] 0 1 (by decide) (by decide)

/- ------------------------------------------------------------------
   C6 - per_page clamped but never transmitted
   ------------------------------------------------------------------ -/

/-- C6: the claim promises that the transmitted `per_page` query value
is clamped to at most 100; the clamp `min(per_page, 100)` (line 36) is
indeed applied when the query dict is built - for every requested
value the dict holds `min(per_page, 100) <= 100`, so `per_page=500`
becomes 100 - but `list_invoices` transmits nothing: the call on
line 47 raises `TypeError` (keyword `params=` against parameter
`request_params`) before any request is made. -/
theorem c6_per_page_clamp_never_transmitted (c : FakturowniaApiClient)
    (period : String) (date_from date_to : Option PyDate) (page per_page : Int)
    (include_positions : Bool) (net : NetResult) :
    dictLookup (listInvoicesParams period date_from date_to page per_page
        include_positions []) "per_page"
      = some (.num ((min per_page 100 : Int) : Rat)) ∧
    (min per_page 100 : Int) ≤ 100 ∧
    list_invoices c period date_from date_to page per_page include_positions [] net
      = .typeErrorRaised "params" := by
  refine ⟨?_, min_le_right per_page 100, rfl⟩
  unfold listInvoicesParams
  cases date_from <;> cases date_to <;> cases include_positions <;>
    simp [dictUpdate, dictLookup_dictSet, dictLookup]

/- ------------------------------------------------------------------
   C4 - list crashes before any dispatch
   ------------------------------------------------------------------ -/

/-- C4: the claim promises that every successful list call returns the
decoded entries of the response array; the code never gets that far:
`list_invoices` passes the keyword `params=` to `_make_request` (line
47), whose parameter is named `request_params` (line 101), so every
call raises `TypeError` before any GET is dispatched - also when a
decodable 200 array response would be available on the wire. -/
theorem c4_list_crashes_before_dispatch (c : FakturowniaApiClient)
    (period : String) (date_from date_to : Option PyDate) (page per_page : Int)
    (include_positions : Bool) (kwargs : Dict) (net : NetResult) :
    list_invoices c period date_from date_to page per_page include_positions kwargs net
      = .typeErrorRaised "params" := rfl

/- ------------------------------------------------------------------
   C3 - quantity > 0 validation on positions
   ------------------------------------------------------------------ -/

/-- C3, counterexample: a position that represents a correction context
(`kind='correction'`, both correction snapshots supplied) with
quantity 0 does NOT construct successfully - the `Field(..., gt=0)`
constraint applies unconditionally, so construction fails with a
client-side Validation error where the claim promises success. -/
theorem c3_counterexample_correction_position_quantity_zero :
    InvoicePositionDTO.construct
      ⟨none, "korekta", 0, .num 100, .num 23, some "correction",
        some ⟨some "before", some 1, some (.num 100), some 23, some "correction_before"⟩,
        some ⟨some "after", some 0, some (.num 0), some 23, some "correction_before"⟩⟩
      = .error (.greaterThan ["quantity"]) := by
  rfl

/-- C3 (amended): for every invoice position with quantity ≤ 0,
construction fails with a client-side Validation error, whether or not
the position represents a correction context - the `gt=0` constraint is
never relaxed on positions themselves; the documented relaxation exists
only inside the correction snapshots (`CorrectionAttributesDTO`), whose
optional `quantity` carries no constraint, as witnessed by the second
conjunct. -/
theorem c3_quantity_nonpositive_always_rejected (p : InvoicePositionDTO)
    (q : Rat) (hq : p.quantity ≤ 0) :
    InvoicePositionDTO.construct p = .error (.greaterThan ["quantity"]) ∧
    CorrectionAttributesDTO.model_validate (.obj [("quantity", .num q)])
      = .ok ⟨none, some q, none, some 23, some "correction_before"⟩ := by
  constructor
  · have : ¬ 0 < p.quantity := not_lt.mpr hq
    simp [InvoicePositionDTO.construct, this]
  · rfl

/-- Witness for C3 (amended): a correction-context position with
quantity -1 is rejected, while a correction snapshot with quantity -1
is accepted. -/
theorem c3_quantity_nonpositive_always_rejected_witness :
    InvoicePositionDTO.construct
        ⟨none, "korekta", -1, .num 100, .num 23, some "correction", none, none⟩
      = .error (.greaterThan ["quantity"]) ∧
    CorrectionAttributesDTO.model_validate (.obj [("quantity", .num (-1))])
      = .ok ⟨none, some (-1), none, some 23, some "correction_before"⟩ :=
  c3_quantity_nonpositive_always_rejected
    ⟨none, "korekta", -1, .num 100, .num 23, some "correction", none, none⟩
    (-1) (by norm_num)

/- ------------------------------------------------------------------
   C7 - non-empty positions required
   ------------------------------------------------------------------ -/

/-- C7: for every document whose positions sequence is empty,
construction fails with a client-side Validation error
(`conlist(..., min_length=1)`); construction is pure, so the failure
happens before any network call. -/
theorem c7_empty_positions_rejected (d : InvoiceDTO)
    (h : d.positions = []) :
    InvoiceDTO.construct d = .error (.tooShort ["positions"]) := by
  simp [InvoiceDTO.construct, h]

/-- Witness for C7: a document with an empty positions list. -/
theorem c7_empty_positions_rejected_witness :
    InvoiceDTO.construct
        ⟨.vat, ⟨2024, 1, 15⟩, ⟨2024, 1, 15⟩, some "Seller", none, some "Buyer",
          none, none, none, some "Przelew", [], none, none, none, none, none,
          none, none⟩
      = .error (.tooShort ["positions"]) :=
  c7_empty_positions_rejected
    ⟨.vat, ⟨2024, 1, 15⟩, ⟨2024, 1, 15⟩, some "Seller", none, some "Buyer",
      none, none, none, some "Przelew", [], none, none, none, none, none,
      none, none⟩ rfl

/- ------------------------------------------------------------------
   C5 - serialisation round trip through create
   ------------------------------------------------------------------ -/

theorem dictLookup_collect_nil (key : String) : dictLookup (collect []) key = none := rfl

theorem dictLookup_collect_skip (k : String) (v : Option Json)
    (rest : List (String × Option Json)) (key : String) (h : ¬ k = key) :
    dictLookup (collect ((k, v) :: rest)) key = dictLookup (collect rest) key := by
  cases v <;> simp [collect, dictLookup, h]

theorem dictLookup_collect_req (k : String) (x : Json)
    (rest : List (String × Option Json)) :
    dictLookup (collect ((k, some x) :: rest)) k = some x := by
  simp [collect, dictLookup]

theorem dictLookup_collect_opt (k : String) (v : Option Json)
    (rest : List (String × Option Json))
    (h : dictLookup (collect rest) k = none) :
    dictLookup (collect ((k, v) :: rest)) k = v := by
  cases v <;> simp [collect, dictLookup, h]

theorem ok_bind {α β : Type} (a : α) (f : α → Except PydanticValidationError β) :
    (Except.ok a >>= f) = f a := rfl

theorem parseOptStr_map (loc : List String) (o : Option String) :
    parseOptStr loc (o.map Json.str) = .ok o := by
  cases o <;> rfl

theorem parseOptRat_map (loc : List String) (o : Option Rat) :
    parseOptRat loc (o.map Json.num) = .ok o := by
  cases o <;> rfl

theorem parseOptInt_map (loc : List String) (o : Option Int) :
    parseOptInt loc (o.map (fun n => Json.num (n : Rat))) = .ok o := by
  cases o with
  | none => rfl
  | some n => simp [parseOptInt]

theorem parseOptDate_map (loc : List String) (o : Option PyDate) :
    parseOptDate loc (o.map Json.date) = .ok o := by
  cases o <;> rfl

theorem parseReqDate_date (loc : List String) (d : PyDate) :
    parseReqDate loc (some (.date d)) = .ok d := rfl

theorem parseNumOrStr_toJson (loc : List String) (v : NumOrStr) :
    parseNumOrStr loc (some v.toJson) = .ok v := by
  cases v <;> rfl

theorem parseOptNumOrStr_map (loc : List String) (o : Option NumOrStr) :
    parseOptNumOrStr loc (o.map NumOrStr.toJson) = .ok o := by
  cases o with
  | none => rfl
  | some v => cases v <;> rfl

theorem parseKind_toStr (loc : List String) (k : DocumentKind) :
    parseKind loc (some (.str k.toStr)) = .ok k := by
  cases k <;> rfl

theorem parseReqStr_str (loc : List String) (s : String) :
    parseReqStr loc (some (.str s)) = .ok s := rfl

theorem parseOptStr_bind (loc : List String) (o : Option String) :
    parseOptStr loc (o.bind fun s => some (Json.str s)) = .ok o := by
  cases o <;> rfl

theorem parseOptInt_bind (loc : List String) (o : Option Int) :
    parseOptInt loc (o.bind fun n => some (Json.num (n : Rat))) = .ok o := by
  cases o with
  | none => rfl
  | some n => simp [parseOptInt]

theorem parseOptRat_bind (loc : List String) (o : Option Rat) :
    parseOptRat loc (o.bind fun q => some (Json.num q)) = .ok o := by
  cases o <;> rfl

theorem parseOptDate_bind (loc : List String) (o : Option PyDate) :
    parseOptDate loc (o.bind fun dt => some (Json.date dt)) = .ok o := by
  cases o <;> rfl

theorem parseOptNumOrStr_bind (loc : List String) (o : Option NumOrStr) :
    parseOptNumOrStr loc (o.bind fun v => some v.toJson) = .ok o := by
  cases o with
  | none => rfl
  | some v => cases v <;> rfl

theorem corr_dump_roundtrip (a : CorrectionAttributesDTO) (h : a.dumpStable = true) :
    CorrectionAttributesDTO.model_validate (.obj a.model_dump) = .ok a := by
  obtain ⟨name, quantity, tpg, tax, kind⟩ := a
  simp only [CorrectionAttributesDTO.dumpStable, Bool.and_eq_true, beq_iff_eq,
    Option.isSome_iff_exists] at h
  obtain ⟨⟨t, ht⟩, hk⟩ := h
  subst ht
  subst hk
  simp [CorrectionAttributesDTO.model_validate, CorrectionAttributesDTO.model_dump,
    dictLookup_collect_nil, dictLookup_collect_skip, dictLookup_collect_req,
    dictLookup_collect_opt, parseOptStr_map, parseOptRat_map, parseOptNumOrStr_map,
    ok_bind]

theorem pos_dump_roundtrip (p : InvoicePositionDTO) (h : p.dumpStable = true) :
    InvoicePositionDTO.model_validate (.obj p.model_dump) = .ok p := by
  obtain ⟨id, name, quantity, tpg, tax, kind, cba, caa⟩ := p
  simp only [InvoicePositionDTO.dumpStable, Bool.and_eq_true, decide_eq_true_eq] at h
  obtain ⟨⟨hq, hb⟩, ha⟩ := h
  cases cba with
  | none =>
    cases caa with
    | none =>
      simp [InvoicePositionDTO.model_validate, InvoicePositionDTO.model_dump,
        dictLookup_collect_nil, dictLookup_collect_skip, dictLookup_collect_req,
        dictLookup_collect_opt, parseOptStr_map, parseOptStr_bind, parseOptInt_map, parseOptInt_bind,
        parseReqStr_str, parseNumOrStr_toJson,
        parseOptCorrection, hq, ok_bind]
    | some a =>
      simp [InvoicePositionDTO.model_validate, InvoicePositionDTO.model_dump,
        dictLookup_collect_nil, dictLookup_collect_skip, dictLookup_collect_req,
        dictLookup_collect_opt, parseOptStr_map, parseOptStr_bind, parseOptInt_map, parseOptInt_bind,
        parseReqStr_str, parseNumOrStr_toJson,
        parseOptCorrection, corr_dump_roundtrip a ha, hq, ok_bind]
  | some a =>
    cases caa with
    | none =>
      simp [InvoicePositionDTO.model_validate, InvoicePositionDTO.model_dump,
        dictLookup_collect_nil, dictLookup_collect_skip, dictLookup_collect_req,
        dictLookup_collect_opt, parseOptStr_map, parseOptStr_bind, parseOptInt_map, parseOptInt_bind,
        parseReqStr_str, parseNumOrStr_toJson,
        parseOptCorrection, corr_dump_roundtrip a hb, hq, ok_bind]
    | some a2 =>
      simp [InvoicePositionDTO.model_validate, InvoicePositionDTO.model_dump,
        dictLookup_collect_nil, dictLookup_collect_skip, dictLookup_collect_req,
        dictLookup_collect_opt, parseOptStr_map, parseOptStr_bind, parseOptInt_map, parseOptInt_bind,
        parseReqStr_str, parseNumOrStr_toJson,
        parseOptCorrection, corr_dump_roundtrip a hb, corr_dump_roundtrip a2 ha, hq,
        ok_bind]

theorem validatePositions_dump (ps : List InvoicePositionDTO)
    (h : ∀ p ∈ ps, p.dumpStable = true) :
    validatePositions (ps.map fun p => .obj p.model_dump) = .ok ps := by
  induction ps with
  | nil => rfl
  | cons hd tl ih =>
    simp [validatePositions, pos_dump_roundtrip hd (h hd (by simp)),
      ih (fun p hp => h p (by simp [hp])), ok_bind]

theorem invoice_dump_roundtrip (d : InvoiceDTO) (h : d.dumpStable = true) :
    InvoiceDTO.model_validate (.obj d.model_dump) = .ok d := by
  obtain ⟨kind, sell_date, issue_date, sn, stn, bn, btn, be, pt, pm, pos,
    cr, iid, fiid, id, ca, ua, iu⟩ := d
  simp only [InvoiceDTO.dumpStable, Bool.and_eq_true, Bool.not_eq_true',
    List.all_eq_true, Option.isSome_iff_exists] at h
  obtain ⟨⟨hpos, pmv, hpm⟩, hall⟩ := h
  subst hpm
  have hps : validatePositions (pos.map fun p => .obj p.model_dump) = .ok pos :=
    validatePositions_dump pos (fun p hp => hall p hp)
  have hne : pos ≠ [] := by simpa using hpos
  simp [InvoiceDTO.model_validate, InvoiceDTO.model_dump,
    dictLookup_collect_nil, dictLookup_collect_skip, dictLookup_collect_req,
    dictLookup_collect_opt, parseOptStr_map, parseOptStr_bind, parseOptInt_map,
    parseOptInt_bind, parseOptDate_map, parseOptDate_bind, parseReqDate_date,
    parseKind_toStr, hps, hpos, hne, ok_bind]


/-- C5, counterexample: a valid `InvoiceDTO` holding a correction
position whose after-snapshot carries the caller-supplied
`kind='correction_after'` does not survive the create round trip: the
snapshot `kind` field is `exclude=True`, so `model_dump` drops it and
parsing the echoed response re-defaults it to `'correction_before'`,
changing a caller-supplied field value. -/
theorem c5_counterexample_snapshot_kind_lost :
    (create_invoice ⟨"https://x.fakturownia.pl", "tok", 10⟩ exampleCorrectionDoc
        exampleCorrectionEcho).parsedDoc ≠ some exampleCorrectionDoc ∧
    (create_invoice ⟨"https://x.fakturownia.pl", "tok", 10⟩ exampleCorrectionDoc
        exampleCorrectionEcho).parsedDoc = some exampleCorrectionDocReparsed := by
  constructor
  · intro hcontra
    have h2 : (create_invoice ⟨"https://x.fakturownia.pl", "tok", 10⟩ exampleCorrectionDoc
        exampleCorrectionEcho).parsedDoc = some exampleCorrectionDocReparsed := rfl
    rw [h2] at hcontra
    exact absurd (Option.some.inj hcontra) (by decide)
  · rfl

/-- C5 (amended): for every valid `InvoiceDTO` none of whose
default-carrying optional fields is set to None (`payment_method` held,
snapshot `tax` held) and whose correction snapshots keep the default
`kind='correction_before'` (`dumpStable`), serialising it for create,
echoing that serialised form back as the mocked response and parsing
the response reproduces every caller-supplied field value unchanged;
outside these conditions, dropped fields re-acquire their declared
defaults (see the counterexample). -/
theorem c5_create_roundtrip (c : FakturowniaApiClient) (d : InvoiceDTO)
    (text : String) (h : d.dumpStable = true) :
    create_invoice c d (.response ⟨200, .json (.obj d.model_dump), text⟩)
      = .parsed d := by
  simp [create_invoice, makeRequest, handleResponse, HttpBody.contentEmpty,
    invoice_dump_roundtrip d h]

/-- Witness for C5 (amended): a two-position vat invoice with seller,
buyer and payment data survives the create round trip unchanged. -/
theorem c5_create_roundtrip_witness :
    create_invoice ⟨"https://x.fakturownia.pl", "tok", 10⟩
        ⟨.vat, ⟨2024, 2, 1⟩, ⟨2024, 2, 3⟩, some "ACME sp. z o.o.", some "1111111111",
          some "Jan Kowalski", some "2222222222", some "jan@ex.pl", some ⟨2024, 2, 17⟩,
          some "Przelew",
          [⟨none, "Usługa A", 2, .num 246, .num 23, none, none, none⟩,
           ⟨some 5, "Towar B", (3 : Rat), .str "99.50", .str "zw", none,
             some ⟨some "przed", some 1, some (.num 100), some 23, some "correction_before"⟩,
             none⟩],
          none, none, none, none, none, none, none⟩
        (.response ⟨200,
          .json (.obj (InvoiceDTO.model_dump
            ⟨.vat, ⟨2024, 2, 1⟩, ⟨2024, 2, 3⟩, some "ACME sp. z o.o.", some "1111111111",
              some "Jan Kowalski", some "2222222222", some "jan@ex.pl", some ⟨2024, 2, 17⟩,
              some "Przelew",
              [⟨none, "Usługa A", 2, .num 246, .num 23, none, none, none⟩,
               ⟨some 5, "Towar B", (3 : Rat), .str "99.50", .str "zw", none,
                 some ⟨some "przed", some 1, some (.num 100), some 23, some "correction_before"⟩,
                 none⟩],
              none, none, none, none, none, none, none⟩)),
          "ok"⟩)
      = .parsed
        ⟨.vat, ⟨2024, 2, 1⟩, ⟨2024, 2, 3⟩, some "ACME sp. z o.o.", some "1111111111",
          some "Jan Kowalski", some "2222222222", some "jan@ex.pl", some ⟨2024, 2, 17⟩,
          some "Przelew",
          [⟨none, "Usługa A", 2, .num 246, .num 23, none, none, none⟩,
           ⟨some 5, "Towar B", (3 : Rat), .str "99.50", .str "zw", none,
             some ⟨some "przed", some 1, some (.num 100), some 23, some "correction_before"⟩,
             none⟩],
          none, none, none, none, none, none, none⟩ :=
  c5_create_roundtrip ⟨"https://x.fakturownia.pl", "tok", 10⟩
    ⟨.vat, ⟨2024, 2, 1⟩, ⟨2024, 2, 3⟩, some "ACME sp. z o.o.", some "1111111111",
      some "Jan Kowalski", some "2222222222", some "jan@ex.pl", some ⟨2024, 2, 17⟩,
      some "Przelew",
      [⟨none, "Usługa A", 2, .num 246, .num 23, none, none, none⟩,
       ⟨some 5, "Towar B", (3 : Rat), .str "99.50", .str "zw", none,
         some ⟨some "przed", some 1, some (.num 100), some 23, some "correction_before"⟩,
         none⟩],
      none, none, none, none, none, none, none⟩
    "ok" (by decide)
